import Mathlib

/-
Verification development for the monitoring shims of this repository:
the Sentry redaction pipeline (src/api/src/lib/monitoring/sentry.py) and
the Application Insights adapter (src/api/src/lib/monitoring/app_insights.py).
Python dicts are modelled as association lists with unique keys, Python
strings as Lean strings, and the vendor SDK calls a function performs as an
explicit list of emitted calls.
-/

set_option autoImplicit false

/-- PyVal models a Python value stored in an event dict: a string, an
integer, a boolean, or the value None. -/
inductive PyVal where
  | s (v : String)
  | i (v : Int)
  | b (v : Bool)
  | none
  deriving DecidableEq, Repr

/-- Dict models a Python dict with string keys: an association list whose
keys are unique. -/
abbrev Dict := List (String × PyVal)

/-- Models dict.pop(k, None): remove the entry for key k, if present.
Keys of a Python dict are unique, so filtering every entry whose key
equals k removes exactly the one binding dict.pop removes. -/
def popKey (d : Dict) (k : String) : Dict :=
  d.filter (fun p => p.1 != k)

/-- Models dict assignment d[k] = v: update the binding if the key is
present, append it otherwise. -/
def dictSet : Dict → String → PyVal → Dict
  | [], k, v => [(k, v)]
  | p :: ps, k, v => if p.1 = k then (k, v) :: ps else p :: dictSet ps k v

/-- Models the Python test (k in d). -/
def containsKey (d : Dict) (k : String) : Bool :=
  d.any (fun p => p.1 == k)

/-- Decides whether pat occurs as a contiguous substring of the subject,
as the Python expression (pat in s) does on strings. -/
def containsSub (pat : List Char) : List Char → Bool
  | [] => pat.isEmpty
  | c :: cs => pat.isPrefixOf (c :: cs) || containsSub pat cs

/-- String form of containsSub: models (pat in s) for Python strings. -/
def strContains (s pat : String) : Bool :=
  containsSub pat.data s.data

/-- Models str.lower for the ASCII letters that appear in the keys this
code inspects. -/
def lowerChar (c : Char) : Char :=
  if 'A' ≤ c ∧ c ≤ 'Z' then Char.ofNat (c.toNat + 32) else c

/-- ASCII lowercase of a whole string, modelling str.lower on ASCII keys. -/
def lowerStr (s : String) : String :=
  ⟨s.data.map lowerChar⟩

/-- Fuel-driven core of Python str.replace: scan left to right, replace
each non-overlapping occurrence of pat by rep. The fuel starts at the
length of the subject and bounds the number of scanning steps; a match
consumes at least one character when pat is non-empty, so the fuel never
runs out on the calls this file makes. -/
def replaceFuel (pat rep : List Char) : Nat → List Char → List Char
  | 0, rest => rest
  | _ + 1, [] => []
  | fuel + 1, c :: cs =>
    if pat.isPrefixOf (c :: cs) then
      rep ++ replaceFuel pat rep fuel (List.drop pat.length (c :: cs))
    else
      c :: replaceFuel pat rep fuel cs

/-- Models the Python expression s.replace(pat, rep) for non-empty pat. -/
def pyReplace (s pat rep : String) : String :=
  ⟨replaceFuel pat.data rep.data s.data.length s.data⟩

/-- Models the request sub-dict of a Sentry event: its headers dict and
its query_string, each possibly absent. -/
structure SentryRequest where
  headers : Option Dict
  query_string : Option String
  deriving DecidableEq, Repr

/-- Models the contexts sub-dict of a Sentry event: the database context
and the stripe context, each possibly absent. -/
structure Contexts where
  database : Option Dict
  stripe : Option Dict
  deriving DecidableEq, Repr

/-- Models a Sentry event dict: the request, extra and contexts sub-dicts,
each possibly absent. -/
structure SentryEvent where
  request : Option SentryRequest
  extra : Option Dict
  contexts : Option Contexts
  deriving DecidableEq, Repr

/-- Header block of before_send_filter: pop authorization, cookie and
x-api-key from the headers dict (exact keys, as dict.pop matches). -/
def redactHeaders (headers : Dict) : Dict :=
  popKey (popKey (popKey headers "authorization") "cookie") "x-api-key"

/-- Query-string block of before_send_filter: when the string is truthy,
replace the substring token= by token=[REDACTED] and api_key= by
api_key=[REDACTED]; an empty string is left untouched. The source skips
the assignment for a falsy string, which leaves the same value. -/
def sanitizeQuery (query : String) : String :=
  if query = "" then query
  else pyReplace (pyReplace query "token=" "token=[REDACTED]") "api_key="
      "api_key=[REDACTED]"

/-- Marks an extra key as sensitive: its lowercased form contains password
or secret. -/
def sensitiveKey (k : String) : Bool :=
  strContains (lowerStr k) "password" || strContains (lowerStr k) "secret"

/-- Extra block of before_send_filter: iterate over the snapshot
list(extra.keys()) and assign [REDACTED] to each sensitive key. -/
def redactExtraLoop : List String → Dict → Dict
  | [], extra => extra
  | k :: ks, extra =>
    redactExtraLoop ks
      (if sensitiveKey k then dictSet extra k (PyVal.s "[REDACTED]") else extra)

/-- Models the whole extra block: the key snapshot is the key list of the
dict itself. -/
def redactExtra (extra : Dict) : Dict :=
  redactExtraLoop (extra.map Prod.fst) extra

/-- Request block of before_send_filter: headers redaction, then
query-string sanitization. -/
def scrubRequest (request : SentryRequest) : SentryRequest :=
  let request :=
    match request.headers with
    | Option.none => request
    | some headers => { request with headers := some (redactHeaders headers) }
  match request.query_string with
  | Option.none => request
  | some query => { request with query_string := some (sanitizeQuery query) }

/-- Contexts block of before_send_filter: redact
database.connection_string when present, then pop secret_key and api_key
from the stripe context when present. -/
def scrubContexts (contexts : Contexts) : Contexts :=
  let contexts :=
    match contexts.database with
    | Option.none => contexts
    | some db =>
      if containsKey db "connection_string" then
        { contexts with
            database := some (dictSet db "connection_string" (PyVal.s "[REDACTED]")) }
      else contexts
  match contexts.stripe with
  | Option.none => contexts
  | some st => { contexts with stripe := some (popKey (popKey st "secret_key") "api_key") }

/-- Models before_send_filter: apply the request, extra and contexts
blocks in source order and return the event; the source ends with
return event, so the Optional result is always present. -/
def before_send_filter (event : SentryEvent) : Option SentryEvent :=
  some (
    let event :=
      match event.request with
      | Option.none => event
      | some request => { event with request := some (scrubRequest request) }
    let event :=
      match event.extra with
      | Option.none => event
      | some extra => { event with extra := some (redactExtra extra) }
    match event.contexts with
    | Option.none => event
    | some contexts => { event with contexts := some (scrubContexts contexts) })

/-- Models the data sub-dict of a breadcrumb, holding its url when
present. -/
structure BreadcrumbData where
  url : Option String
  deriving DecidableEq, Repr

/-- Models a Sentry breadcrumb dict: its category and its data sub-dict,
each possibly absent. -/
structure Breadcrumb where
  category : Option String
  data : Option BreadcrumbData
  deriving DecidableEq, Repr

/-- URL the filter reads from a crumb: crumb.get("data", and then
get("url", "") with empty-string defaults. -/
def crumbUrl (crumb : Breadcrumb) : String :=
  match crumb.data with
  | Option.none => ""
  | some d => d.url.getD ""

/-- Analytics denylist test of before_breadcrumb_filter: the URL contains
one of the four vendor substrings. -/
def denylisted (url : String) : Bool :=
  ["analytics", "tracking", "segment", "mixpanel"].any (fun x => strContains url x)

/-- Models before_breadcrumb_filter: drop query-category crumbs, drop
httplib crumbs whose URL hits the analytics denylist, keep every other
crumb unchanged. -/
def before_breadcrumb_filter (crumb : Breadcrumb) : Option Breadcrumb :=
  if crumb.category = some "query" then Option.none
  else if crumb.category = some "httplib" then
    if denylisted (crumbUrl crumb) then Option.none else some crumb
  else some crumb

/-- Severity of a Python logging call. -/
inductive LogLevel where
  | debug
  | info
  | warning
  | error
  | critical
  deriving DecidableEq, Repr

/-- Models a Python exception object by its type name and message. -/
structure PyErr where
  ty : String
  msg : String
  deriving DecidableEq, Repr

/-- Models one call the adapter makes into the vendor clients: a logger
call with its level, message and custom dimensions, a metrics-pipeline
call, or an exporter flush. -/
inductive VendorCall where
  | log (level : LogLevel) (message : String) (dims : Dict)
  | registerView (name : String)
  | recordMetric (name : String) (value : Int) (tags : List (String × String))
  | exportTrace
  | exportMetrics
  deriving DecidableEq, Repr

/-- Models the module globals of app_insights.py: _tracer,
_metrics_exporter and _logger (each None until initialized), together
with the number of handlers attached to the shared module logger that
logging.getLogger returns. -/
structure AIGlobals where
  tracer : Option Unit
  metricsExp : Option Unit
  logger : Option Unit
  loggerHandlers : Nat
  deriving DecidableEq, Repr

/-- Module state at import time: every global is None and the shared
logger has no handler attached by this module. -/
def initialGlobals : AIGlobals :=
  { tracer := Option.none, metricsExp := Option.none, logger := Option.none,
    loggerHandlers := 0 }

/-- Models init_app_insights on its non-throwing path: with no connection
string it prints and returns, leaving every global as it was; with one it
builds a fresh tracer and metrics exporter, fetches the shared module
logger and attaches one more AzureLogHandler to it. -/
def init_app_insights (connection_string : Option String) (g : AIGlobals) : AIGlobals :=
  match connection_string with
  | Option.none => g
  | some _ =>
    { tracer := some (), metricsExp := some (), logger := some (),
      loggerHandlers := g.loggerHandlers + 1 }

/-- Models track_event: a no-op without a logger, otherwise one info log
call whose dimensions merge the event name, properties and measurements. -/
def track_event (g : AIGlobals) (name : String) (properties measurements : Dict) :
    List VendorCall :=
  match g.logger with
  | Option.none => []
  | some _ =>
    [VendorCall.log LogLevel.info ("Event: " ++ name)
      ((("event_name", PyVal.s name) :: properties) ++ measurements)]

/-- Models track_metric: a no-op without a metrics exporter, otherwise a
view registration followed by one recorded measurement. -/
def track_metric (g : AIGlobals) (name : String) (value : Int)
    (properties : List (String × String)) : List VendorCall :=
  match g.metricsExp with
  | Option.none => []
  | some _ => [VendorCall.registerView name, VendorCall.recordMetric name value properties]

/-- Models track_exception: a no-op without a logger, otherwise one log
call whose level is critical for severity CRITICAL, warning for WARNING,
and error for every other severity string. -/
def track_exception (g : AIGlobals) (error : PyErr) (severity : String)
    (properties : Dict) : List VendorCall :=
  match g.logger with
  | Option.none => []
  | some _ =>
    let dims := ("exception_type", PyVal.s error.ty)
      :: ("exception_message", PyVal.s error.msg) :: properties
    if severity = "CRITICAL" then [VendorCall.log LogLevel.critical error.msg dims]
    else if severity = "WARNING" then [VendorCall.log LogLevel.warning error.msg dims]
    else [VendorCall.log LogLevel.error error.msg dims]

/-- Models track_trace: a no-op without a logger, otherwise one log call
at the level selected by the severity chain, defaulting to info. -/
def track_trace (g : AIGlobals) (message : String) (severity : String)
    (properties : Dict) : List VendorCall :=
  match g.logger with
  | Option.none => []
  | some _ =>
    if severity = "DEBUG" then [VendorCall.log LogLevel.debug message properties]
    else if severity = "WARNING" then [VendorCall.log LogLevel.warning message properties]
    else if severity = "ERROR" then [VendorCall.log LogLevel.error message properties]
    else if severity = "CRITICAL" then [VendorCall.log LogLevel.critical message properties]
    else [VendorCall.log LogLevel.info message properties]

/-- Models track_request: a no-op without a logger, otherwise one info
log call carrying the request dimensions. -/
def track_request (g : AIGlobals) (name url : String) (duration : Int)
    (response_code : Int) (success : Bool) (properties : Dict) : List VendorCall :=
  match g.logger with
  | Option.none => []
  | some _ =>
    [VendorCall.log LogLevel.info ("Request: " ++ name)
      ((("request_name", PyVal.s name) :: ("url", PyVal.s url)
        :: ("duration_ms", PyVal.i duration) :: ("response_code", PyVal.i response_code)
        :: ("success", PyVal.b success) :: properties))]

/-- Models track_dependency: a no-op without a logger, otherwise one info
log call carrying the dependency dimensions. -/
def track_dependency (g : AIGlobals) (name dependency_type target : String)
    (duration : Int) (success : Bool) (result_code : Option Int)
    (properties : Dict) : List VendorCall :=
  match g.logger with
  | Option.none => []
  | some _ =>
    [VendorCall.log LogLevel.info ("Dependency: " ++ name)
      ((("dependency_name", PyVal.s name) :: ("dependency_type", PyVal.s dependency_type)
        :: ("target", PyVal.s target) :: ("duration_ms", PyVal.i duration)
        :: ("success", PyVal.b success)
        :: ("result_code", match result_code with
            | Option.none => PyVal.none
            | some rc => PyVal.i rc) :: properties))]

/-- Models flush: export the trace queue when a tracer exists and the
metrics queue when a metrics exporter exists; otherwise do nothing. -/
def flush (g : AIGlobals) : List VendorCall :=
  (match g.tracer with
   | Option.none => []
   | some _ => [VendorCall.exportTrace])
  ++ (match g.metricsExp with
      | Option.none => []
      | some _ => [VendorCall.exportMetrics])

/-- Outcome of the wrapped request handler: a response with its status
code, or a raised exception. -/
inductive HandlerOutcome where
  | response (status : Int)
  | throws (e : PyErr)
  deriving DecidableEq, Repr

/-- What the middleware hands back to the framework: the returned
response status, or the re-raised exception. -/
inductive MwResult where
  | returns (status : Int)
  | raises (e : PyErr)
  deriving DecidableEq, Repr

/-- Models one adapter invocation the middleware performs. -/
inductive AdapterCall where
  | trackRequest (name url : String) (duration : Int) (response_code : Int) (success : Bool)
  | trackException (e : PyErr) (severity : String)
  deriving DecidableEq, Repr

/-- Models the middleware returned by get_fastapi_middleware: on a
successful handler it calls track_request with success set to
status < 400 and returns the response; on a raised exception it calls
track_exception with severity ERROR and re-raises the same exception. -/
def app_insights_middleware (method path url : String) (duration : Int)
    (outcome : HandlerOutcome) : MwResult × List AdapterCall :=
  match outcome with
  | HandlerOutcome.response status =>
    (MwResult.returns status,
      [AdapterCall.trackRequest (method ++ " " ++ path) url duration status
        (decide (status < 400))])
  | HandlerOutcome.throws e =>
    (MwResult.raises e, [AdapterCall.trackException e "ERROR"])

/-- Closed form of before_send_filter: each block rewrites exactly its
own sub-dict, so the returned event is the input with the three scrubbed
fields. -/
theorem before_send_filter_eq (e : SentryEvent) :
    before_send_filter e = some
      { request := e.request.map scrubRequest,
        extra := e.extra.map redactExtra,
        contexts := e.contexts.map scrubContexts } := by
  obtain ⟨req, ex, cx⟩ := e
  cases req <;> cases ex <;> cases cx <;> rfl

/-- Closed form of scrubRequest: headers and query string are rewritten
independently. -/
theorem scrubRequest_eq (r : SentryRequest) :
    scrubRequest r = { headers := r.headers.map redactHeaders,
                       query_string := r.query_string.map sanitizeQuery } := by
  obtain ⟨hd, qs⟩ := r
  cases hd <;> cases qs <;> rfl

/-- Membership in the redacted headers dict: an entry survives exactly
when its key is none of the three popped keys, compared byte for byte. -/
theorem mem_redactHeaders (hs : Dict) (k : String) (v : PyVal) :
    (k, v) ∈ redactHeaders hs ↔
      ((k, v) ∈ hs ∧ k ≠ "authorization" ∧ k ≠ "cookie" ∧ k ≠ "x-api-key") := by
  simp only [redactHeaders, popKey, List.mem_filter, bne_iff_ne]
  tauto

/-- Updating a key that differs from the head key skips the head. -/
theorem dictSet_cons_of_ne (q : String × PyVal) (ps : Dict) (k : String) (v : PyVal)
    (h : q.1 ≠ k) : dictSet (q :: ps) k v = q :: dictSet ps k v := by
  simp [dictSet, fun hq => h hq]

/-- The extra loop never touches an entry whose key is outside the key
snapshot it iterates over. -/
theorem redactExtraLoop_cons :
    ∀ (ks : List String) (q : String × PyVal) (ps : Dict), q.1 ∉ ks →
      redactExtraLoop ks (q :: ps) = q :: redactExtraLoop ks ps := by
  intro ks
  induction ks with
  | nil => intro q ps _; rfl
  | cons k ks ih =>
    intro q ps h
    simp only [List.mem_cons, not_or] at h
    simp only [redactExtraLoop]
    by_cases hsk : sensitiveKey k
    · rw [if_pos hsk, if_pos hsk, dictSet_cons_of_ne q ps k _ h.1, ih q _ h.2]
    · rw [if_neg hsk, if_neg hsk, ih q ps h.2]

/-- With unique keys, the whole extra loop equals the entrywise map that
redacts exactly the sensitive keys. -/
theorem redactExtra_eq_map :
    ∀ (xs : Dict), (xs.map Prod.fst).Nodup →
      redactExtra xs =
        xs.map (fun p => if sensitiveKey p.1 then (p.1, PyVal.s "[REDACTED]") else p) := by
  intro xs
  induction xs with
  | nil => intro _; rfl
  | cons p ps ih =>
    intro hnd
    simp only [List.map_cons, List.nodup_cons] at hnd
    obtain ⟨hp, hnd⟩ := hnd
    show redactExtraLoop (p.1 :: ps.map Prod.fst) (p :: ps) = _
    simp only [redactExtraLoop]
    by_cases hsp : sensitiveKey p.1
    · rw [if_pos hsp]
      have h1 : dictSet (p :: ps) p.1 (PyVal.s "[REDACTED]") = (p.1, PyVal.s "[REDACTED]") :: ps := by
        cases p
        simp [dictSet]
      rw [h1, redactExtraLoop_cons (ps.map Prod.fst) (p.1, PyVal.s "[REDACTED]") ps hp,
        show redactExtraLoop (ps.map Prod.fst) ps = redactExtra ps from rfl, ih hnd]
      simp [hsp]
    · rw [if_neg hsp, redactExtraLoop_cons _ _ _ hp,
        show redactExtraLoop (ps.map Prod.fst) ps = redactExtra ps from rfl, ih hnd]
      simp [hsp]

/-- Event with only a query string, the shape the query-string scenarios
use. -/
def queryEvent (q : String) : SentryEvent :=
  { request := some { headers := Option.none, query_string := some q },
    extra := Option.none, contexts := Option.none }

/-- Scenario input of C1: an event whose query string is
api_key=ABC123&page=2. -/
def evC1 : SentryEvent := queryEvent "api_key=ABC123&page=2"

/-- C1: on the documented scenario input the secret value survives: the
source replaces the literal key text api_key= by api_key=[REDACTED],
which inserts the marker after the key but leaves the value ABC123 in
place, so the output query string differs from the one the claim
requires. -/
theorem claim1_query_value_survives :
    before_send_filter evC1 = some (queryEvent "api_key=[REDACTED]ABC123&page=2")
    ∧ ("api_key=[REDACTED]ABC123&page=2" : String) ≠ "api_key=[REDACTED]&page=2" := by
  refine ⟨by decide, by decide⟩

/-- Failing input of C3: an event whose query string is token=abc. -/
def evC3 : SentryEvent := queryEvent "token=abc"

/-- One application of the filter to evC3 leaves a re-matchable token=
pattern in front of the leaked value. -/
def evC3once : SentryEvent := queryEvent "token=[REDACTED]abc"

/-- The second application matches token= again and inserts a second
marker. -/
def evC3twice : SentryEvent := queryEvent "token=[REDACTED][REDACTED]abc"

/-- C3: before_send_filter is not idempotent: the first pass rewrites
token=abc to token=[REDACTED]abc, whose prefix token= matches again, so
the second pass produces a different event. -/
theorem claim3_not_idempotent :
    before_send_filter evC3 = some evC3once
    ∧ before_send_filter evC3once = some evC3twice
    ∧ evC3twice ≠ evC3once := by
  refine ⟨by decide, by decide, by decide⟩

/-- Event with only a headers map, the shape the header scenarios use. -/
def headersEvent (hs : Dict) : SentryEvent :=
  { request := some { headers := some hs, query_string := Option.none },
    extra := Option.none, contexts := Option.none }

/-- Scenario input of C2: the header key is spelled Authorization. -/
def evC2 : SentryEvent :=
  headersEvent [("Authorization", PyVal.s "Bearer x"), ("User-Agent", PyVal.s "curl")]

/-- C2 counterexample: dict.pop matches keys byte for byte, so on the
scenario input whose key is spelled Authorization the filter removes
nothing, and the output differs from the headers map the claim
requires. -/
theorem claim2_counterexample :
    before_send_filter evC2 = some evC2
    ∧ evC2 ≠ headersEvent [("User-Agent", PyVal.s "curl")] := by
  refine ⟨by decide, by decide⟩

/-- C2 amended: header redaction removes exactly the entries whose key is
byte-equal to authorization, cookie or x-api-key — the match is
case-sensitive — and removes no other entry: a header entry is in the
output exactly when it is in the input and its key is none of the
three. -/
theorem claim2_exact_key_removal (e : SentryEvent) (r : SentryRequest) (hs : Dict)
    (hr : e.request = some r) (hh : r.headers = some hs) (k : String) (v : PyVal) :
    ∃ e2, before_send_filter e = some e2
      ∧ (∃ r2, e2.request = some r2 ∧ r2.headers = some (redactHeaders hs))
      ∧ ((k, v) ∈ redactHeaders hs ↔
          ((k, v) ∈ hs ∧ k ≠ "authorization" ∧ k ≠ "cookie" ∧ k ≠ "x-api-key")) := by
  refine ⟨_, before_send_filter_eq e, ⟨scrubRequest r, ?_, ?_⟩, mem_redactHeaders hs k v⟩
  · simp [hr]
  · rw [scrubRequest_eq]
    simp [hh]

/-- Concrete headers map for the C2 witness. -/
def hsC2w : Dict := [("authorization", PyVal.s "Bearer t"), ("User-Agent", PyVal.s "curl")]

/-- C2 witness: the amended theorem applied at a concrete event whose
lowercase authorization header is removed while User-Agent survives. -/
theorem claim2_exact_key_removal_witness :
    ∃ e2, before_send_filter (headersEvent hsC2w) = some e2
      ∧ (∃ r2, e2.request = some r2 ∧ r2.headers = some (redactHeaders hsC2w))
      ∧ ((("authorization" : String), PyVal.s "Bearer t") ∈ redactHeaders hsC2w ↔
          ((("authorization" : String), PyVal.s "Bearer t") ∈ hsC2w
            ∧ ("authorization" : String) ≠ "authorization"
            ∧ ("authorization" : String) ≠ "cookie"
            ∧ ("authorization" : String) ≠ "x-api-key")) :=
  claim2_exact_key_removal (headersEvent hsC2w) _ hsC2w rfl rfl
    "authorization" (PyVal.s "Bearer t")

/-- C4: before_send_filter never drops an event: for every event it
returns some possibly redacted event, never the drop signal. -/
theorem claim4_never_drops (e : SentryEvent) :
    ∃ e2, before_send_filter e = some e2 :=
  ⟨_, rfl⟩

/-- C5: before_breadcrumb_filter drops exactly the query-category crumbs
and the httplib crumbs whose URL contains one of the analytics denylist
substrings, and every kept crumb is returned unchanged. -/
theorem claim5_breadcrumb_filter (c : Breadcrumb) :
    (before_breadcrumb_filter c = Option.none ↔
      (c.category = some "query" ∨
        (c.category = some "httplib" ∧ denylisted (crumbUrl c) = true)))
    ∧ (before_breadcrumb_filter c = Option.none ∨ before_breadcrumb_filter c = some c) := by
  unfold before_breadcrumb_filter
  split_ifs with h1 h2 h3 <;> simp_all

/-- C6: the extra block replaces the value of every key whose lowercase
form contains password or secret with [REDACTED] and leaves every other
entry — key and value — unchanged, stated as the entrywise map over the
extra dict (dict keys are unique). -/
theorem claim6_extra_redaction (e : SentryEvent) (xs : Dict)
    (hx : e.extra = some xs) (hnd : (xs.map Prod.fst).Nodup) :
    ∃ e2, before_send_filter e = some e2
      ∧ e2.extra = some (xs.map
          (fun p => if sensitiveKey p.1 then (p.1, PyVal.s "[REDACTED]") else p)) := by
  refine ⟨_, before_send_filter_eq e, ?_⟩
  simp [hx, redactExtra_eq_map xs hnd]

/-- C6 witness: a db_password entry is masked while a page entry keeps
its value. -/
theorem claim6_extra_redaction_witness :
    ∃ e2, before_send_filter
        { request := Option.none,
          extra := some [("db_password", PyVal.s "hunter2"), ("page", PyVal.i 2)],
          contexts := Option.none } = some e2
      ∧ e2.extra = some [("db_password", PyVal.s "[REDACTED]"), ("page", PyVal.i 2)] := by
  obtain ⟨e2, h1, h2⟩ := claim6_extra_redaction
    { request := Option.none,
      extra := some [("db_password", PyVal.s "hunter2"), ("page", PyVal.i 2)],
      contexts := Option.none }
    [("db_password", PyVal.s "hunter2"), ("page", PyVal.i 2)] rfl (by decide)
  exact ⟨e2, h1, h2.trans (by decide)⟩

/-- C7: when the three module globals are unset — the state init leaves
behind when no connection string is configured — every tracking call and
flush emits no vendor call. -/
theorem claim7_disabled_noops (g : AIGlobals)
    (h1 : g.tracer = Option.none) (h2 : g.metricsExp = Option.none)
    (h3 : g.logger = Option.none)
    (eventName metricName reqName depName url target dependency_type message : String)
    (value duration response_code : Int) (success : Bool) (error : PyErr)
    (sevE sevT : String) (props meas : Dict) (tags : List (String × String))
    (result_code : Option Int) :
    track_event g eventName props meas = []
    ∧ track_metric g metricName value tags = []
    ∧ track_exception g error sevE props = []
    ∧ track_trace g message sevT props = []
    ∧ track_request g reqName url duration response_code success props = []
    ∧ track_dependency g depName dependency_type target duration success result_code props = []
    ∧ flush g = [] := by
  refine ⟨?_, ?_, ?_, ?_, ?_, ?_, ?_⟩ <;>
    simp [track_event, track_metric, track_exception, track_trace, track_request,
      track_dependency, flush, h1, h2, h3]

/-- C7 witness: the state produced by init_app_insights without a
connection string is the import-time disabled state, and every call on it
is silent. -/
theorem claim7_disabled_noops_witness :
    track_event (init_app_insights Option.none initialGlobals) "deploy" [] [] = []
    ∧ track_metric (init_app_insights Option.none initialGlobals) "queue_depth" 3 [] = []
    ∧ track_exception (init_app_insights Option.none initialGlobals)
        ⟨"ValueError", "boom"⟩ "ERROR" [] = []
    ∧ track_trace (init_app_insights Option.none initialGlobals) "hello" "INFO" [] = []
    ∧ track_request (init_app_insights Option.none initialGlobals)
        "GET /" "http://h/" 12 200 true [] = []
    ∧ track_dependency (init_app_insights Option.none initialGlobals)
        "db" "SQL" "pg" 3 true (some 0) [] = []
    ∧ flush (init_app_insights Option.none initialGlobals) = [] :=
  claim7_disabled_noops (init_app_insights Option.none initialGlobals) rfl rfl rfl
    "deploy" "queue_depth" "GET /" "db" "http://h/" "pg" "SQL" "hello"
    3 12 200 true ⟨"ValueError", "boom"⟩ "ERROR" "INFO" [] [] [] (some 0)

/-- C8: per request exactly one emission path fires: a successful handler
yields exactly one trackRequest call with success equal to status < 400
and the response is returned, and a throwing handler yields exactly one
trackException call carrying the same exception, which is then re-raised
unchanged. -/
theorem claim8_middleware_paths (method path url : String) (duration : Int)
    (outcome : HandlerOutcome) :
    ((app_insights_middleware method path url duration outcome).2.length = 1)
    ∧ (∀ status, outcome = HandlerOutcome.response status →
        app_insights_middleware method path url duration outcome =
          (MwResult.returns status,
            [AdapterCall.trackRequest (method ++ " " ++ path) url duration status
              (decide (status < 400))]))
    ∧ (∀ e, outcome = HandlerOutcome.throws e →
        app_insights_middleware method path url duration outcome =
          (MwResult.raises e, [AdapterCall.trackException e "ERROR"])) := by
  cases outcome <;> simp [app_insights_middleware]

/-- C8 witness: a handler raising ValueError boom leads to exactly one
trackException call carrying that same error, and the middleware
re-raises it to the caller. -/
theorem claim8_middleware_paths_witness :
    app_insights_middleware "GET" "/items" "http://h/items" 7
        (HandlerOutcome.throws ⟨"ValueError", "boom"⟩) =
      (MwResult.raises ⟨"ValueError", "boom"⟩,
        [AdapterCall.trackException ⟨"ValueError", "boom"⟩ "ERROR"]) :=
  (claim8_middleware_paths "GET" "/items" "http://h/items" 7
    (HandlerOutcome.throws ⟨"ValueError", "boom"⟩)).2.2 ⟨"ValueError", "boom"⟩ rfl

/-- C9 counterexample: a second init with the same configuration neither
leaves the process state identical nor rejects the call — the source has
no guard and returns normally — so the state after two calls differs from
the state after one: one more log handler is attached. -/
theorem claim9_counterexample :
    init_app_insights (some "InstrumentationKey=abc")
        (init_app_insights (some "InstrumentationKey=abc") initialGlobals)
      ≠ init_app_insights (some "InstrumentationKey=abc") initialGlobals := by
  decide

/-- C9 amended: init_app_insights has no double-initialization guard:
every call with a connection string re-runs the whole setup, replacing
the tracer and metrics exporter and attaching one more AzureLogHandler to
the shared module logger, so the handler count grows by one per call and
a second call changes the process-wide state again. -/
theorem claim9_reinit_mutates (g : AIGlobals) (cs : String) :
    (init_app_insights (some cs) g).loggerHandlers = g.loggerHandlers + 1
    ∧ init_app_insights (some cs) (init_app_insights (some cs) g)
        ≠ init_app_insights (some cs) g := by
  refine ⟨rfl, ?_⟩
  intro h
  have h2 := congrArg AIGlobals.loggerHandlers h
  simp only [init_app_insights] at h2
  omega

/-- C9 witness: the amended theorem at the import-time state. -/
theorem claim9_reinit_mutates_witness :
    (init_app_insights (some "cs") initialGlobals).loggerHandlers =
        initialGlobals.loggerHandlers + 1
    ∧ init_app_insights (some "cs") (init_app_insights (some "cs") initialGlobals)
        ≠ init_app_insights (some "cs") initialGlobals :=
  claim9_reinit_mutates initialGlobals "cs"

/-- C10: every severity string other than CRITICAL and WARNING — INFO,
DEBUG, or any arbitrary value — falls through to the default branch, so
the exception is logged at error level. -/
theorem claim10_default_severity_error (g : AIGlobals) (error : PyErr)
    (severity : String) (props : Dict)
    (hl : g.logger ≠ Option.none)
    (h1 : severity ≠ "CRITICAL") (h2 : severity ≠ "WARNING") :
    track_exception g error severity props =
      [VendorCall.log LogLevel.error error.msg
        (("exception_type", PyVal.s error.ty)
          :: ("exception_message", PyVal.s error.msg) :: props)] := by
  cases hg : g.logger with
  | none => exact absurd hg hl
  | some l => simp [track_exception, hg, h1, h2]

/-- C10 witness: severity INFO on an initialized adapter is logged at
error level. -/
theorem claim10_default_severity_error_witness :
    track_exception (init_app_insights (some "cs") initialGlobals)
        ⟨"ValueError", "boom"⟩ "INFO" [] =
      [VendorCall.log LogLevel.error "boom"
        [("exception_type", PyVal.s "ValueError"), ("exception_message", PyVal.s "boom")]] :=
  claim10_default_severity_error (init_app_insights (some "cs") initialGlobals)
    ⟨"ValueError", "boom"⟩ "INFO" [] (by decide) (by decide) (by decide)
